import Mathlib

/-!
Verification of the e-stamp checkout and admin back-office.

Shallow embedding of the TypeScript sources:
* `src/pages/Checkout.tsx` — stamp-duty rate switch, delivery fee, total;
* `src/pages/OrderDetail.tsx` (`StampSelection`) — the duplicated rate switch;
* `src/pages/admin/catalog/BulkUpload.tsx` — `parseCSV`, `validateRow`;
* `src/lib/firestore.ts` — order/state accessors over the document store;
* admin `States` screen — `handleDeleteState`;
* admin `OrderDetails.tsx` — `handleUpdateOrder`;
* `OtpLogin` — provider error-code → message mapping.

Numeric convention: the TypeScript code computes `Math.round(baseAmount *
stampDutyRate)` in IEEE doubles; we embed the arithmetic over `ℚ` (exact
rationals), with `jsRound q = ⌊q + 1/2⌋`, which is JavaScript
`Math.round` semantics (round half toward +∞).
-/

namespace Stamp

/-- JavaScript `Math.round`: round half toward positive infinity. -/
def jsRound (q : ℚ) : ℤ := ⌊q + 1/2⌋

namespace Checkout

/-- `Checkout.tsx` lines 31–38: the `switch (documentType)` assigning
`stampDutyRate` (initialised to 0.05, overwritten in every branch,
`default` branch 0.02). -/
def stampDutyRate (documentType : String) : ℚ :=
  if documentType = "sale_deed" then 5/100
  else if documentType = "lease_deed" then 2/100
  else if documentType = "gift_deed" then 3/100
  else if documentType = "power_of_attorney" then 1/1000
  else 2/100

/-- `Checkout.tsx` line 39: `Math.round(baseAmount * stampDutyRate)`. -/
def stampAmount (documentType : String) (baseAmount : ℤ) : ℤ :=
  jsRound (baseAmount * stampDutyRate documentType)

/-- `Checkout.tsx` line 40: `deliveryType === "physical" ? 50 : 0`. -/
def deliveryFee (deliveryType : String) : ℤ :=
  if deliveryType = "physical" then 50 else 0

/-- `Checkout.tsx` line 41: `stampAmount + deliveryFee`. -/
def totalAmount (documentType : String) (baseAmount : ℤ) (deliveryType : String) : ℤ :=
  stampAmount documentType baseAmount + deliveryFee deliveryType

/-- `Checkout.tsx` line 27: `searchParams.get("deliveryType") || "digital"` —
`get` yields `null` when the parameter is absent, and `||` also replaces the
empty string. -/
def deliveryTypeParam (param : Option String) : String :=
  match param with
  | none => "digital"
  | some s => if s = "" then "digital" else s

end Checkout

namespace StampSelection

/-- `OrderDetail.tsx` lines 459–478 (`StampSelection`): the duplicated
`switch (documentType)` assigning `stampDutyRate`. -/
def stampDutyRate (documentType : String) : ℚ :=
  if documentType = "sale_deed" then 5/100
  else if documentType = "lease_deed" then 2/100
  else if documentType = "gift_deed" then 3/100
  else if documentType = "power_of_attorney" then 1/1000
  else 2/100

/-- `OrderDetail.tsx` line 480: `Math.round(baseAmount * stampDutyRate)`. -/
def calculatedStampDuty (documentType : String) (baseAmount : ℤ) : ℤ :=
  jsRound (baseAmount * stampDutyRate documentType)

end StampSelection

/-- The spec's fixed rate table, as written in §4 of the specification:
`{sale_deed: 0.05, lease_deed: 0.02, gift_deed: 0.03, power_of_attorney: 0.001}`. -/
def specRateTable : List (String × ℚ) :=
  [("sale_deed", 5/100), ("lease_deed", 2/100), ("gift_deed", 3/100),
   ("power_of_attorney", 1/1000)]

/-- Rate lookup per the spec's words: table entry, or the default 0.02 for a
document type not in the table. -/
def specRate (documentType : String) : ℚ :=
  (((specRateTable.find? (fun p => p.1 = documentType)).map Prod.snd)).getD (2/100)

namespace BulkUpload

/-- ASCII whitespace, for the model of JS `String.prototype.trim` (JS also
trims the rarer Unicode whitespace code points; the CSV claims do not involve
them). -/
def isWS (c : Char) : Bool := c = ' ' ∨ c = '\t' ∨ c = '\n' ∨ c = '\r'

/-- Model of JS `.trim()`: drop whitespace from both ends. -/
def trimChars (l : List Char) : List Char :=
  ((l.dropWhile isWS).reverse.dropWhile isWS).reverse

/-- Model of JS `text.split('\n')`: split the character list at every newline;
the empty text yields one empty line, as in JS. -/
def splitLines : List Char → List (List Char)
  | [] => [[]]
  | c :: r =>
    if c = '\n' then [] :: splitLines r
    else
      match splitLines r with
      | [] => [[c]]
      | l :: ls => (c :: l) :: ls

/-- The per-character loop of `parseCSV` in `BulkUpload.tsx` lines 88–104:
`"` toggles `inQuotes` (the quote character itself is dropped), `,` outside
quotes closes the current field (trimmed), any other character is appended to
the current field; the final field is pushed after the loop. -/
def parseLineAux : List Char → List Char → Bool → List String
  | [], current, _ => [String.mk (trimChars current)]
  | c :: rest, current, inQuotes =>
    if c = '"' then parseLineAux rest current (!inQuotes)
    else if c = ',' ∧ inQuotes = false then
      String.mk (trimChars current) :: parseLineAux rest [] inQuotes
    else parseLineAux rest (current ++ [c]) inQuotes

/-- One line of the CSV, parsed with empty accumulator and `inQuotes = false`. -/
def parseLine (line : String) : List String :=
  parseLineAux line.data [] false

/-- `BulkUpload.tsx` lines 85–106: split on newline, drop lines that trim to
the empty string (JS truthiness of `line.trim()`), parse each remaining
line. -/
def parseCSV (text : String) : List (List String) :=
  (((splitLines text.data).map String.mk).filter
      (fun line => !(trimChars line.data).isEmpty)).map parseLine

inductive UploadType
  | products
  | districts
  | tehsils
deriving DecidableEq

inductive UploadStatus
  | success
  | error
  | warning
deriving DecidableEq

/-- `UploadResult` of `BulkUpload.tsx` (the optional `data` payload, a JS
object echoing the row, is not carried: no property depends on it). -/
structure UploadResult where
  row : Nat
  status : UploadStatus
  message : String
deriving DecidableEq

/-- The JS object built by `headers.forEach((header, index) => data[header] =
row[index])`: a later duplicate header overwrites an earlier one, hence the
search over the reversed association list; an absent key reads as the falsy
`""` (standing for `undefined`, which the validation's `!data.x` tests treat
the same way). -/
def rowData (headers row : List String) (key : String) : String :=
  (((headers.zip row).reverse.find? (fun p => p.1 == key)).map Prod.snd).getD ""

/-- Model of the JavaScript `isNaN(Number(s))` test used on CSV `amount`
fields, restricted to decimal numeric literals: after trimming, the empty
string converts to 0 (not NaN); otherwise the string must be an optionally
signed decimal literal with optional fraction and exponent. (Hex literals and
`Infinity`, which JS also accepts, are not modelled; no claim depends on
them.) -/
def dropSign : List Char → List Char
  | '+' :: r => r
  | '-' :: r => r
  | r => r

def splitAtChar (sep : Char) (alt : Char) : List Char → List Char × Option (List Char)
  | [] => ([], none)
  | c :: r =>
    if c = sep ∨ c = alt then ([], some r)
    else
      let (a, b) := splitAtChar sep alt r
      (c :: a, b)

def allDigits (l : List Char) : Bool := l.all (fun c => c.isDigit)

def mantissaOK (l : List Char) : Bool :=
  let (intPart, fracPart) := splitAtChar '.' '.' l
  match fracPart with
  | none => !intPart.isEmpty && allDigits intPart
  | some f => (!intPart.isEmpty || !f.isEmpty) && allDigits intPart && allDigits f

def exponentOK (l : List Char) : Bool :=
  let l := dropSign l
  !l.isEmpty && allDigits l

def isNumericLiteral (l : List Char) : Bool :=
  let l := dropSign l
  let (mant, ex) := splitAtChar 'e' 'E' l
  match ex with
  | none => mantissaOK mant
  | some e => mantissaOK mant && exponentOK e

def jsNumberIsNaN (s : String) : Bool :=
  let t := trimChars s.data
  if t = [] then false else !isNumericLiteral t

/-- `validateRow` of `BulkUpload.tsx` lines 108–165: a row whose field count
differs from the header row's is an error; otherwise per-upload-type field
checks, in source order, else a success result. -/
def validateRow (uploadType : UploadType) (row headers : List String)
    (rowIndex : Nat) : UploadResult :=
  if row.length ≠ headers.length then
    { row := rowIndex, status := .error,
      message := "Expected " ++ toString headers.length ++ " columns, got " ++
        toString row.length }
  else
    let data := rowData headers row
    match uploadType with
    | .products =>
      if data "name" = "" ∨ (data "name").length < 2 then
        ⟨rowIndex, .error, "Product name must be at least 2 characters"⟩
      else if data "amount" = "" ∨ jsNumberIsNaN (data "amount") then
        ⟨rowIndex, .error, "Amount must be a valid number"⟩
      else if data "categoryId" = "" then
        ⟨rowIndex, .error, "Category ID is required"⟩
      else if data "stateId" = "" then
        ⟨rowIndex, .error, "State ID is required"⟩
      else ⟨rowIndex, .success, "Valid row"⟩
    | .districts =>
      if data "name" = "" ∨ (data "name").length < 2 then
        ⟨rowIndex, .error, "District name must be at least 2 characters"⟩
      else if data "stateId" = "" then
        ⟨rowIndex, .error, "State ID is required"⟩
      else ⟨rowIndex, .success, "Valid row"⟩
    | .tehsils =>
      if data "name" = "" ∨ (data "name").length < 2 then
        ⟨rowIndex, .error, "Tehsil name must be at least 2 characters"⟩
      else if data "districtId" = "" then
        ⟨rowIndex, .error, "District ID is required"⟩
      else ⟨rowIndex, .success, "Valid row"⟩

end BulkUpload

namespace Firestore

/-- Firestore `Timestamp`, modelled as a natural number instant. -/
abbrev Timestamp := ℕ

/-- `Order.status` union type of `firestore.ts` line 76. -/
inductive OrderStatus
  | pending
  | processing
  | completed
  | failed
deriving DecidableEq

/-- `Order.deliveryType` union type of `firestore.ts` line 67. -/
inductive DeliveryType
  | digital
  | door
deriving DecidableEq

/-- The `Order` interface of `firestore.ts` lines 55–81, minus `id` (the
document id is the key in the collection). -/
structure OrderDoc where
  userId : String
  productId : String
  stateId : String
  districtId : String
  tehsilId : String
  party1Name : String
  party2Name : String
  email : String
  phone : String
  whatsapp : Option String
  deliveryType : DeliveryType
  address : Option String
  pincode : Option String
  landmark : Option String
  stampAmount : ℤ
  platformFee : ℤ
  expressFee : Option ℤ
  deliveryFee : Option ℤ
  totalPaid : ℤ
  status : OrderStatus
  pdfUrl : Option String
  courierTrackingId : Option String
  createdAt : Timestamp
  updatedAt : Timestamp
deriving DecidableEq

/-- The `State` interface, minus `id`. -/
structure StateDoc where
  name : String
  code : String
deriving DecidableEq

/-- The `District` interface, minus `id`. -/
structure DistrictDoc where
  stateId : String
  name : String
deriving DecidableEq

/-- The `Tehsil` interface, minus `id`. -/
structure TehsilDoc where
  districtId : String
  name : String
deriving DecidableEq

/-- The document store: each collection an association list id ↦ document
(only the collections the claims touch are carried). -/
structure DB where
  states : List (String × StateDoc)
  districts : List (String × DistrictDoc)
  tehsils : List (String × TehsilDoc)
  orders : List (String × OrderDoc)
deriving DecidableEq

/-- `firestore.ts` lines 104–112: `deleteState` issues a single
`deleteDoc(doc(db, 'states', stateId))` — it removes that one document from
the `states` collection and touches nothing else. -/
def deleteState (db : DB) (stateId : String) : DB :=
  { db with states := db.states.filter (fun p => p.1 != stateId) }

/-- `handleDeleteState` of the admin States screen: after the `confirm(...)`
dialog (whose text claims associated districts and tehsils will also be
deleted), the handler calls only `deleteState`. -/
def handleDeleteState (db : DB) (stateId : String) (confirmed : Bool) : DB :=
  if confirmed then deleteState db stateId else db

/-- `Partial<Order>` as used by `updateOrder` / `updateOrderAdmin`: any subset
of the order's fields may be supplied. -/
structure OrderUpdates where
  userId : Option String := none
  productId : Option String := none
  stateId : Option String := none
  districtId : Option String := none
  tehsilId : Option String := none
  party1Name : Option String := none
  party2Name : Option String := none
  email : Option String := none
  phone : Option String := none
  whatsapp : Option (Option String) := none
  deliveryType : Option DeliveryType := none
  address : Option (Option String) := none
  pincode : Option (Option String) := none
  landmark : Option (Option String) := none
  stampAmount : Option ℤ := none
  platformFee : Option ℤ := none
  expressFee : Option (Option ℤ) := none
  deliveryFee : Option (Option ℤ) := none
  totalPaid : Option ℤ := none
  status : Option OrderStatus := none
  pdfUrl : Option (Option String) := none
  courierTrackingId : Option (Option String) := none
  createdAt : Option Timestamp := none
  updatedAt : Option Timestamp := none
deriving DecidableEq

/-- Firestore `updateDoc` field merge: a supplied field overwrites the stored
one, an absent field is kept. -/
def applyOrderUpdates (o : OrderDoc) (u : OrderUpdates) : OrderDoc :=
  { userId := u.userId.getD o.userId
    productId := u.productId.getD o.productId
    stateId := u.stateId.getD o.stateId
    districtId := u.districtId.getD o.districtId
    tehsilId := u.tehsilId.getD o.tehsilId
    party1Name := u.party1Name.getD o.party1Name
    party2Name := u.party2Name.getD o.party2Name
    email := u.email.getD o.email
    phone := u.phone.getD o.phone
    whatsapp := u.whatsapp.getD o.whatsapp
    deliveryType := u.deliveryType.getD o.deliveryType
    address := u.address.getD o.address
    pincode := u.pincode.getD o.pincode
    landmark := u.landmark.getD o.landmark
    stampAmount := u.stampAmount.getD o.stampAmount
    platformFee := u.platformFee.getD o.platformFee
    expressFee := u.expressFee.getD o.expressFee
    deliveryFee := u.deliveryFee.getD o.deliveryFee
    totalPaid := u.totalPaid.getD o.totalPaid
    status := u.status.getD o.status
    pdfUrl := u.pdfUrl.getD o.pdfUrl
    courierTrackingId := u.courierTrackingId.getD o.courierTrackingId
    createdAt := u.createdAt.getD o.createdAt
    updatedAt := u.updatedAt.getD o.updatedAt }

/-- `updateDoc(doc(db, 'orders', orderId), data)`: apply `data` to the
document with that id, leave the rest of the collection untouched. -/
def updateCollection (l : List (String × OrderDoc)) (docId : String)
    (f : OrderDoc → OrderDoc) : List (String × OrderDoc) :=
  l.map (fun p => if p.1 = docId then (p.1, f p.2) else p)

/-- `firestore.ts` lines 296–307 (`updateOrder`): writes
`{...updates, updatedAt: Timestamp.now()}` — the spread puts the caller's
fields first, so the trailing `updatedAt` always wins. -/
def updateOrder (db : DB) (orderId : String) (updates : OrderUpdates)
    (now : Timestamp) : DB :=
  { db with
    orders := updateCollection db.orders orderId
      (fun o => applyOrderUpdates o { updates with updatedAt := some now }) }

/-- `firestore.ts` lines 356–367 (`updateOrderAdmin`): body identical to
`updateOrder` (the duplication is in the source). -/
def updateOrderAdmin (db : DB) (orderId : String) (updates : OrderUpdates)
    (now : Timestamp) : DB :=
  { db with
    orders := updateCollection db.orders orderId
      (fun o => applyOrderUpdates o { updates with updatedAt := some now }) }

/-- `firestore.ts` lines 282–294 (`createOrder`): `addDoc` of
`{...orderData, createdAt: Timestamp.now(), updatedAt: Timestamp.now()}`.
The TypeScript input type is `Omit<Order, 'id' | 'createdAt' | 'updatedAt'>`;
here the spread's override semantics is modelled directly on a full
document. The two `Timestamp.now()` calls are the same instant `now`. -/
def createOrder (db : DB) (orderData : OrderDoc) (newId : String)
    (now : Timestamp) : DB :=
  { db with
    orders := db.orders ++
      [(newId, { orderData with createdAt := now, updatedAt := now })] }

/-- `firestore.ts` lines 341–354 (`getOrderById`): the document with that id,
or `null`. -/
def getOrderById (db : DB) (orderId : String) : Option OrderDoc :=
  (db.orders.find? (fun p => p.1 == orderId)).map Prod.snd

/-- The update object built by `handleUpdateOrder` in admin
`OrderDetails.tsx` lines 82–92: `status` is always set to the selected value;
`pdfUrl` and `courierTrackingId` are added only when the form field differs
from the stored value (compared against `''` when unset). -/
def buildAdminUpdates (order : OrderDoc) (statusSel : OrderStatus)
    (pdfUrlField trackingIdField : String) : OrderUpdates :=
  let u0 : OrderUpdates := { status := some statusSel }
  let u1 := if pdfUrlField ≠ order.pdfUrl.getD "" then
      { u0 with pdfUrl := some (some pdfUrlField) } else u0
  if trackingIdField ≠ order.courierTrackingId.getD "" then
    { u1 with courierTrackingId := some (some trackingIdField) } else u1

/-- `handleUpdateOrder` of admin `OrderDetails.tsx` lines 77–113: build the
update object and call `updateOrderAdmin` — no comparison against the
previous status anywhere. -/
def handleUpdateOrder (db : DB) (order : OrderDoc) (orderId : String)
    (statusSel : OrderStatus) (pdfUrlField trackingIdField : String)
    (now : Timestamp) : DB :=
  updateOrderAdmin db orderId
    (buildAdminUpdates order statusSel pdfUrlField trackingIdField) now

/-- The four counters of `getOrdersCountByStatus`. -/
structure StatusCounts where
  pending : ℕ
  processing : ℕ
  completed : ℕ
  failed : ℕ
deriving DecidableEq

/-- One step of the `snapshot.docs.forEach` counting loop; the source's
`counts.hasOwnProperty(order.status)` guard is always true for the four typed
statuses. -/
def bumpCount (c : StatusCounts) (s : OrderStatus) : StatusCounts :=
  match s with
  | .pending => { c with pending := c.pending + 1 }
  | .processing => { c with processing := c.processing + 1 }
  | .completed => { c with completed := c.completed + 1 }
  | .failed => { c with failed := c.failed + 1 }

/-- `firestore.ts` lines 369–398 (`getOrdersCountByStatus`): `getDocs` over
the whole `orders` collection, then a counting scan starting from all
zeroes. -/
def getOrdersCountByStatus (db : DB) : StatusCounts :=
  db.orders.foldl (fun c p => bumpCount c p.2.status) ⟨0, 0, 0, 0⟩

/-- `firestore.ts` lines 400–417 (`getTotalRevenue`): a query filtered by
`where('status', '==', 'completed')`, then a scan summing `totalPaid` from
0. -/
def getTotalRevenue (db : DB) : ℤ :=
  ((db.orders.filter (fun p => p.2.status == OrderStatus.completed)).map
      (fun p => p.2.totalPaid)).foldl (· + ·) 0

/-- The spec's description of the revenue aggregate ("loading every order into
memory and summing totalPaid"): the sum of `totalPaid` over the entire orders
collection, with no status filter. -/
def totalPaidAllOrders (db : DB) : ℤ :=
  (db.orders.map (fun p => p.2.totalPaid)).sum

end Firestore

namespace OtpLogin

/-- The `catch` handler of `sendOTP` in the `OtpLogin` screen (lines 89–108):
`errorMessage` starts at the generic fallback and is overridden for exactly
three provider error codes. -/
def sendOTPErrorMessage (code : String) : String :=
  if code = "auth/invalid-phone-number" then
    "Invalid phone number format."
  else if code = "auth/too-many-requests" then
    "Too many requests. Please try again later."
  else if code = "auth/captcha-check-failed" then
    "reCAPTCHA verification failed. Please try again."
  else "Failed to send OTP. Please try again."

/-- The `catch` handler of `verifyOTP` (lines 164–181): generic fallback,
overridden for exactly two provider error codes. -/
def verifyOTPErrorMessage (code : String) : String :=
  if code = "auth/invalid-verification-code" then
    "Invalid verification code."
  else if code = "auth/code-expired" then
    "OTP has expired. Please request a new one."
  else "Invalid OTP. Please try again."

end OtpLogin

/-- A concrete order document, used in counterexamples and witnesses. -/
def sampleOrder : Firestore.OrderDoc :=
  { userId := "u1", productId := "p1", stateId := "s1", districtId := "d1",
    tehsilId := "t1", party1Name := "A", party2Name := "B", email := "a@b.c",
    phone := "9999999999", whatsapp := none, deliveryType := .digital,
    address := none, pincode := none, landmark := none, stampAmount := 100,
    platformFee := 0, expressFee := none, deliveryFee := none,
    totalPaid := 100, status := .pending, pdfUrl := none,
    courierTrackingId := none, createdAt := 0, updatedAt := 0 }

/-- A store holding exactly one (pending) order. -/
def sampleDB : Firestore.DB :=
  { states := [], districts := [], tehsils := [],
    orders := [("o1", sampleOrder)] }

end Stamp

namespace Stamp

lemma specRate_eq_checkout (d : String) :
    specRate d = Checkout.stampDutyRate d := by
  by_cases h1 : d = "sale_deed"
  · simp [specRate, specRateTable, Checkout.stampDutyRate, h1]
  · by_cases h2 : d = "lease_deed"
    · simp [specRate, specRateTable, Checkout.stampDutyRate, h1, h2]
    · by_cases h3 : d = "gift_deed"
      · simp [specRate, specRateTable, Checkout.stampDutyRate, h1, h2, h3]
      · by_cases h4 : d = "power_of_attorney"
        · simp [specRate, specRateTable, Checkout.stampDutyRate, h1, h2, h3, h4]
        · simp [specRate, specRateTable, Checkout.stampDutyRate, h1, h2, h3, h4,
            Ne.symm h1, Ne.symm h2, Ne.symm h3, Ne.symm h4]

lemma checkout_rate_eq_stampSelection (d : String) :
    Checkout.stampDutyRate d = StampSelection.stampDutyRate d := rfl

end Stamp

namespace Stamp.BulkUpload

lemma parseLineAux_quoted (f : List Char) (h : '"' ∉ f) (acc : List Char) :
    parseLineAux (f ++ ['"']) acc true = [String.mk (trimChars (acc ++ f))] := by
  induction f generalizing acc with
  | nil => simp [parseLineAux]
  | cons c f ih =>
    have hc : ¬c = '"' := fun hc => h (by simp [hc])
    have hf : '"' ∉ f := fun hf => h (List.mem_cons_of_mem c hf)
    rw [List.cons_append, parseLineAux, if_neg hc, if_neg (by simp), ih hf]
    simp

end Stamp.BulkUpload

namespace Stamp.Firestore

lemma find_updateCollection (l : List (String × OrderDoc)) (oid : String)
    (f : OrderDoc → OrderDoc) :
    (updateCollection l oid f).find? (fun p => p.1 == oid) =
      (l.find? (fun p => p.1 == oid)).map (fun p => (p.1, f p.2)) := by
  induction l with
  | nil => rfl
  | cons p l ih =>
    simp only [updateCollection, List.map_cons] at ih ⊢
    by_cases h : p.1 = oid
    · simp [if_pos h, List.find?_cons, h]
    · have hb : (p.1 == oid) = false := by simp [h]
      simp only [if_neg h, List.find?_cons, hb, ih]

lemma getOrderById_updateCollection (db : DB) (oid : String) (o : OrderDoc)
    (g : OrderDoc → OrderDoc) (h : getOrderById db oid = some o) :
    ((updateCollection db.orders oid g).find? (fun p => p.1 == oid)).map
        Prod.snd = some (g o) := by
  rw [find_updateCollection]
  unfold getOrderById at h
  cases hf : db.orders.find? (fun p => p.1 == oid) with
  | none => rw [hf] at h; simp at h
  | some q =>
    rw [hf] at h
    simp at h
    simp [h]

lemma getOrderById_updateOrder (db : DB) (oid : String) (o : OrderDoc)
    (u : OrderUpdates) (now : Timestamp) (h : getOrderById db oid = some o) :
    getOrderById (updateOrder db oid u now) oid =
      some (applyOrderUpdates o { u with updatedAt := some now }) := by
  simp only [updateOrder, getOrderById]
  exact getOrderById_updateCollection db oid o _ h

lemma getOrderById_updateOrderAdmin (db : DB) (oid : String) (o : OrderDoc)
    (u : OrderUpdates) (now : Timestamp) (h : getOrderById db oid = some o) :
    getOrderById (updateOrderAdmin db oid u now) oid =
      some (applyOrderUpdates o { u with updatedAt := some now }) := by
  simp only [updateOrderAdmin, getOrderById]
  exact getOrderById_updateCollection db oid o _ h

lemma buildAdminUpdates_status (o : OrderDoc) (s : OrderStatus)
    (pdf trk : String) : (buildAdminUpdates o s pdf trk).status = some s := by
  unfold buildAdminUpdates
  dsimp only
  split <;> split <;> rfl

lemma getOrdersCountByStatus_foldl (l : List (String × OrderDoc))
    (c : StatusCounts) :
    l.foldl (fun c p => bumpCount c p.2.status) c =
      { pending := c.pending + l.countP (fun p => p.2.status == OrderStatus.pending),
        processing :=
          c.processing + l.countP (fun p => p.2.status == OrderStatus.processing),
        completed :=
          c.completed + l.countP (fun p => p.2.status == OrderStatus.completed),
        failed := c.failed + l.countP (fun p => p.2.status == OrderStatus.failed) } := by
  induction l generalizing c with
  | nil => simp
  | cons p l ih =>
    rw [List.foldl_cons, ih]
    cases hs : p.2.status <;>
      simp [bumpCount, hs, List.countP_cons, StatusCounts.mk.injEq] <;> omega

lemma foldl_add_eq_sum (l : List ℤ) (a : ℤ) : l.foldl (· + ·) a = a + l.sum := by
  induction l generalizing a with
  | nil => simp
  | cons x l ih => simp [ih]; ring

lemma filter_completed_sum (l : List (String × OrderDoc)) :
    ((l.filter (fun p => p.2.status == OrderStatus.completed)).map
        (fun p => p.2.totalPaid)).sum =
      (l.map
        (fun p =>
          if p.2.status = OrderStatus.completed then p.2.totalPaid else 0)).sum := by
  induction l with
  | nil => rfl
  | cons p l ih =>
    by_cases h : p.2.status = OrderStatus.completed <;>
      simp [List.filter_cons, h, ih]

lemma getTotalRevenue_eq (db : DB) :
    getTotalRevenue db =
      (db.orders.map
        (fun p =>
          if p.2.status = OrderStatus.completed then p.2.totalPaid else 0)).sum := by
  unfold getTotalRevenue
  rw [foldl_add_eq_sum, zero_add, filter_completed_sum]

end Stamp.Firestore

namespace Stamp

/-- C1: for every document type and every integer transaction value, the stamp
duty computed in `Checkout.tsx` and in `StampSelection` equals
`round(transactionValue × rate)` with `rate` drawn from the spec's fixed table
(default 0.02 for unrecognised types); in particular
`power_of_attorney` at 200000 yields 200 in both places. -/
theorem stampDuty_matches_rate_table :
    (∀ (d : String) (v : ℤ),
        Checkout.stampAmount d v = jsRound (v * specRate d) ∧
        StampSelection.calculatedStampDuty d v = jsRound (v * specRate d)) ∧
    Checkout.stampAmount "power_of_attorney" 200000 = 200 ∧
    StampSelection.calculatedStampDuty "power_of_attorney" 200000 = 200 := by
  refine ⟨fun d v => ?_, ?_, ?_⟩
  · rw [Checkout.stampAmount, StampSelection.calculatedStampDuty,
      specRate_eq_checkout, checkout_rate_eq_stampSelection]
    exact ⟨rfl, rfl⟩
  · show jsRound ((200000 : ℤ) * Checkout.stampDutyRate "power_of_attorney") = 200
    rw [show Checkout.stampDutyRate "power_of_attorney" = 1/1000 from rfl]
    norm_num [jsRound]
  · show jsRound ((200000 : ℤ) * StampSelection.stampDutyRate "power_of_attorney") = 200
    rw [show StampSelection.stampDutyRate "power_of_attorney" = 1/1000 from rfl]
    norm_num [jsRound]

end Stamp

/-- C2 counterexample: the checkout computation gives delivery surcharge 0, not
50, at `deliveryType = "door"` (the value the `Order` interface stores for
physical delivery), refuting the claim that both `"physical"` and `"door"`
yield the surcharge. -/
theorem deliveryFee_door_counterexample :
    Stamp.Checkout.deliveryFee "door" = 0 ∧ Stamp.Checkout.deliveryFee "door" ≠ 50 := by
  constructor
  · rfl
  · decide

/-- C2 (amended): for every transaction value, the delivery surcharge in the
checkout computation is exactly 50 when `deliveryType` is the string
`"physical"`, and exactly zero for every other string (including `"door"`),
independent of the transaction value: the total minus the stamp amount is the
surcharge, whatever the value. -/
theorem deliveryFee_physical_only :
    Stamp.Checkout.deliveryFee "physical" = 50 ∧
    (∀ dt : String, dt ≠ "physical" → Stamp.Checkout.deliveryFee dt = 0) ∧
    (∀ (d dt : String) (v : ℤ),
        Stamp.Checkout.totalAmount d v dt - Stamp.Checkout.stampAmount d v =
          Stamp.Checkout.deliveryFee dt) := by
  refine ⟨rfl, fun dt h => ?_, fun d dt v => ?_⟩
  · simp [Stamp.Checkout.deliveryFee, h]
  · simp [Stamp.Checkout.totalAmount]

/-- C2 witness: the amended theorem at the concrete inputs `"door"` and
`"physical"`. -/
theorem deliveryFee_physical_only_witness :
    Stamp.Checkout.deliveryFee "physical" = 50 ∧ Stamp.Checkout.deliveryFee "door" = 0 :=
  ⟨deliveryFee_physical_only.1, deliveryFee_physical_only.2.1 "door" (by decide)⟩

/-- C3: the checkout total is exactly `stampAmount + deliveryFee`, with no
other additive term; at transactionValue 1000000 and `sale_deed` the stamp
amount is 50000, the total is 50000 for `"digital"` delivery and 50050 for
`"physical"`. -/
theorem totalAmount_is_stamp_plus_delivery :
    (∀ (d dt : String) (v : ℤ),
        Stamp.Checkout.totalAmount d v dt =
          Stamp.Checkout.stampAmount d v + Stamp.Checkout.deliveryFee dt) ∧
    Stamp.Checkout.stampAmount "sale_deed" 1000000 = 50000 ∧
    Stamp.Checkout.totalAmount "sale_deed" 1000000 "digital" = 50000 ∧
    Stamp.Checkout.totalAmount "sale_deed" 1000000 "physical" = 50050 := by
  have hs : Stamp.Checkout.stampAmount "sale_deed" 1000000 = 50000 := by
    show Stamp.jsRound ((1000000 : ℤ) * Stamp.Checkout.stampDutyRate "sale_deed") = 50000
    rw [show Stamp.Checkout.stampDutyRate "sale_deed" = 5/100 from rfl]
    norm_num [Stamp.jsRound]
  refine ⟨fun d dt v => rfl, hs, ?_, ?_⟩
  · rw [Stamp.Checkout.totalAmount, hs]; rfl
  · rw [Stamp.Checkout.totalAmount, hs]; rfl

/-- C4: in the bulk-upload CSV parser a double-quoted field is preserved as a
single field whatever it contains (commas included); a two-row CSV whose
second row has a quoted field with an embedded comma parses to exactly the
header fields and the two data fields; and `validateRow` flags every data row
whose field count differs from the header row's as an error rather than
truncating or padding it. -/
theorem csv_quoted_field_and_row_length :
    (∀ f : List Char, '"' ∉ f →
        Stamp.BulkUpload.parseLine (String.mk ('"' :: (f ++ ['"']))) =
          [String.mk (Stamp.BulkUpload.trimChars f)]) ∧
    Stamp.BulkUpload.parseCSV "name,stateId\n\"Mumbai, City\",MH01" =
      [["name", "stateId"], ["Mumbai, City", "MH01"]] ∧
    (∀ (t : Stamp.BulkUpload.UploadType) (row headers : List String) (i : Nat),
        row.length ≠ headers.length →
          (Stamp.BulkUpload.validateRow t row headers i).status =
            Stamp.BulkUpload.UploadStatus.error) := by
  refine ⟨fun f h => ?_, by decide, fun t row headers i h => ?_⟩
  · show Stamp.BulkUpload.parseLineAux ('"' :: (f ++ ['"'])) [] false = _
    rw [Stamp.BulkUpload.parseLineAux, if_pos rfl]
    simpa using Stamp.BulkUpload.parseLineAux_quoted f h []
  · simp only [Stamp.BulkUpload.validateRow, if_pos h]

/-- C4 witness: the quoted-field property at the concrete field `b,c` and the
length-mismatch property at a one-field row against a two-field header. -/
theorem csv_quoted_field_and_row_length_witness :
    Stamp.BulkUpload.parseLine (String.mk ('"' :: (['b', ',', 'c'] ++ ['"']))) =
      [String.mk (Stamp.BulkUpload.trimChars ['b', ',', 'c'])] ∧
    (Stamp.BulkUpload.validateRow .districts ["x"] ["name", "stateId"] 2).status =
      Stamp.BulkUpload.UploadStatus.error :=
  ⟨csv_quoted_field_and_row_length.1 ['b', ',', 'c'] (by decide),
   csv_quoted_field_and_row_length.2.2 .districts ["x"] ["name", "stateId"] 2
     (by decide)⟩

/-- C9: when the `deliveryType` query parameter is absent on the checkout
screen it defaults to `"digital"`; the delivery fee is then zero and the total
equals the stamp amount alone, for every document type and transaction
value. -/
theorem deliveryType_defaults_digital :
    Stamp.Checkout.deliveryTypeParam none = "digital" ∧
    Stamp.Checkout.deliveryFee (Stamp.Checkout.deliveryTypeParam none) = 0 ∧
    (∀ (d : String) (v : ℤ),
        Stamp.Checkout.totalAmount d v (Stamp.Checkout.deliveryTypeParam none) =
          Stamp.Checkout.stampAmount d v) := by
  refine ⟨rfl, rfl, fun d v => ?_⟩
  show Stamp.Checkout.stampAmount d v + Stamp.Checkout.deliveryFee "digital" =
    Stamp.Checkout.stampAmount d v
  simp [Stamp.Checkout.deliveryFee]

namespace Stamp.Firestore

/-- C5: deleting a State deletes only that state's document — `deleteState`
and the admin handler that calls it leave the districts and tehsils
collections (and the orders) unchanged, removing exactly the document with
the given id from `states`; no cascading delete exists, despite the admin
confirmation text. -/
theorem deleteState_frame :
    ∀ (db : DB) (sid : String) (confirmed : Bool),
      (deleteState db sid).districts = db.districts ∧
      (deleteState db sid).tehsils = db.tehsils ∧
      (deleteState db sid).orders = db.orders ∧
      (deleteState db sid).states = db.states.filter (fun p => p.1 != sid) ∧
      (handleDeleteState db sid confirmed).districts = db.districts ∧
      (handleDeleteState db sid confirmed).tehsils = db.tehsils := by
  intro db sid confirmed
  refine ⟨rfl, rfl, rfl, rfl, ?_, ?_⟩ <;> cases confirmed <;> rfl

/-- C6: the admin order-update path writes the selected status
unconditionally — for every stored order (whatever its current status) and
every target status, after `handleUpdateOrder` the order's status is the
target; no layer inspects the previous status. -/
theorem order_status_overwrite_unguarded :
    ∀ (db : DB) (oid : String) (o : OrderDoc) (statusSel : OrderStatus)
      (pdf trk : String) (now : Timestamp),
      getOrderById db oid = some o →
      (getOrderById (handleUpdateOrder db o oid statusSel pdf trk now) oid).map
          OrderDoc.status = some statusSel := by
  intro db oid o s pdf trk now h
  rw [handleUpdateOrder, getOrderById_updateOrderAdmin db oid o _ now h]
  simp [applyOrderUpdates, buildAdminUpdates_status]

/-- C6 witness: a pending order overwritten directly to `completed`. -/
theorem order_status_overwrite_unguarded_witness :
    (getOrderById
        (handleUpdateOrder Stamp.sampleDB Stamp.sampleOrder "o1"
          OrderStatus.completed "" "" 5) "o1").map OrderDoc.status =
      some OrderStatus.completed :=
  order_status_overwrite_unguarded Stamp.sampleDB "o1" Stamp.sampleOrder
    OrderStatus.completed "" "" 5 (by decide)

/-- C7 counterexample: `getTotalRevenue` does not sum `totalPaid` over every
order — on a store holding a single pending order with `totalPaid = 100` it
returns 0, while the sum over all orders is 100 (the query is filtered to
`status == 'completed'`). -/
theorem totalRevenue_not_all_orders_counterexample :
    getTotalRevenue Stamp.sampleDB = 0 ∧
    totalPaidAllOrders Stamp.sampleDB = 100 ∧
    getTotalRevenue Stamp.sampleDB ≠ totalPaidAllOrders Stamp.sampleDB := by
  refine ⟨by decide, by decide, by decide⟩

/-- C7 (amended): the aggregates are computed by collection scans —
`getOrdersCountByStatus` counts, for each of the four statuses, the orders of
the entire collection with that status; `getTotalRevenue` loads the orders
matching a `status == 'completed'` query and sums their `totalPaid`, i.e. it
equals the sum of `totalPaid` over completed orders only. -/
theorem aggregates_by_collection_scan :
    ∀ db : DB,
      (getOrdersCountByStatus db).pending =
        db.orders.countP (fun p => p.2.status == OrderStatus.pending) ∧
      (getOrdersCountByStatus db).processing =
        db.orders.countP (fun p => p.2.status == OrderStatus.processing) ∧
      (getOrdersCountByStatus db).completed =
        db.orders.countP (fun p => p.2.status == OrderStatus.completed) ∧
      (getOrdersCountByStatus db).failed =
        db.orders.countP (fun p => p.2.status == OrderStatus.failed) ∧
      getTotalRevenue db =
        (db.orders.map
          (fun p =>
            if p.2.status = OrderStatus.completed then p.2.totalPaid else 0)).sum := by
  intro db
  simp only [getOrdersCountByStatus, getOrdersCountByStatus_foldl]
  exact ⟨by simp, by simp, by simp, by simp, getTotalRevenue_eq db⟩

/-- C10: every order write refreshes `updatedAt` — `createOrder` stamps both
`createdAt` and `updatedAt` with the current time, and `updateOrder` and
`updateOrderAdmin` set `updatedAt` to the current time on every call, a
caller-supplied `updatedAt` in the partial update being overridden. -/
theorem order_writes_refresh_updatedAt :
    (∀ (db : DB) (d : OrderDoc) (newId : String) (now : Timestamp),
        ∃ o : OrderDoc,
          (createOrder db d newId now).orders.getLast? = some (newId, o) ∧
            o.createdAt = now ∧ o.updatedAt = now) ∧
    (∀ (db : DB) (oid : String) (o : OrderDoc) (u : OrderUpdates)
        (now : Timestamp),
        getOrderById db oid = some o →
        (getOrderById (updateOrder db oid u now) oid).map
            OrderDoc.updatedAt = some now ∧
        (getOrderById (updateOrderAdmin db oid u now) oid).map
            OrderDoc.updatedAt = some now) := by
  constructor
  · intro db d newId now
    refine ⟨{ d with createdAt := now, updatedAt := now }, ?_, rfl, rfl⟩
    simp [createOrder]
  · intro db oid o u now h
    constructor
    · rw [getOrderById_updateOrder db oid o u now h]; rfl
    · rw [getOrderById_updateOrderAdmin db oid o u now h]; rfl

/-- C10 witness: an update that itself supplies `updatedAt = 999` still ends
with `updatedAt = 7`, the write's current time. -/
theorem order_writes_refresh_updatedAt_witness :
    (getOrderById
        (updateOrder Stamp.sampleDB "o1" { updatedAt := some 999 } 7) "o1").map
      OrderDoc.updatedAt = some 7 :=
  (order_writes_refresh_updatedAt.2 Stamp.sampleDB "o1" Stamp.sampleOrder
    { updatedAt := some 999 } 7 (by decide)).1

end Stamp.Firestore

namespace Stamp.OtpLogin

/-- C8: on the phone-OTP path, the three send-side provider codes
(`auth/invalid-phone-number`, `auth/too-many-requests`,
`auth/captcha-check-failed`) map to three pairwise-distinct tailored messages,
each distinct from the generic send fallback, and every other code maps to
that fallback; the two verify-side codes (`auth/invalid-verification-code`,
`auth/code-expired`) map to two distinct tailored messages, each distinct
from the generic verify fallback, and every other code maps to that
fallback. -/
theorem otp_error_message_mapping :
    sendOTPErrorMessage "auth/invalid-phone-number" =
        "Invalid phone number format." ∧
    sendOTPErrorMessage "auth/too-many-requests" =
        "Too many requests. Please try again later." ∧
    sendOTPErrorMessage "auth/captcha-check-failed" =
        "reCAPTCHA verification failed. Please try again." ∧
    (∀ code : String,
        code ≠ "auth/invalid-phone-number" →
        code ≠ "auth/too-many-requests" →
        code ≠ "auth/captcha-check-failed" →
        sendOTPErrorMessage code = "Failed to send OTP. Please try again.") ∧
    verifyOTPErrorMessage "auth/invalid-verification-code" =
        "Invalid verification code." ∧
    verifyOTPErrorMessage "auth/code-expired" =
        "OTP has expired. Please request a new one." ∧
    (∀ code : String,
        code ≠ "auth/invalid-verification-code" →
        code ≠ "auth/code-expired" →
        verifyOTPErrorMessage code = "Invalid OTP. Please try again.") ∧
    sendOTPErrorMessage "auth/invalid-phone-number" ≠
        sendOTPErrorMessage "auth/too-many-requests" ∧
    sendOTPErrorMessage "auth/invalid-phone-number" ≠
        sendOTPErrorMessage "auth/captcha-check-failed" ∧
    sendOTPErrorMessage "auth/too-many-requests" ≠
        sendOTPErrorMessage "auth/captcha-check-failed" ∧
    sendOTPErrorMessage "auth/invalid-phone-number" ≠
        "Failed to send OTP. Please try again." ∧
    sendOTPErrorMessage "auth/too-many-requests" ≠
        "Failed to send OTP. Please try again." ∧
    sendOTPErrorMessage "auth/captcha-check-failed" ≠
        "Failed to send OTP. Please try again." ∧
    verifyOTPErrorMessage "auth/invalid-verification-code" ≠
        verifyOTPErrorMessage "auth/code-expired" ∧
    verifyOTPErrorMessage "auth/invalid-verification-code" ≠
        "Invalid OTP. Please try again." ∧
    verifyOTPErrorMessage "auth/code-expired" ≠
        "Invalid OTP. Please try again." := by
  refine ⟨rfl, rfl, rfl, fun c h1 h2 h3 => ?_, rfl, rfl, fun c h1 h2 => ?_,
    by decide, by decide, by decide, by decide, by decide, by decide,
    by decide, by decide, by decide⟩
  · simp [sendOTPErrorMessage, h1, h2, h3]
  · simp [verifyOTPErrorMessage, h1, h2]

/-- C8 witness: a code outside the mapped set gets the generic fallback on
both paths. -/
theorem otp_error_message_mapping_witness :
    sendOTPErrorMessage "auth/network-request-failed" =
        "Failed to send OTP. Please try again." ∧
    verifyOTPErrorMessage "auth/network-request-failed" =
        "Invalid OTP. Please try again." :=
  ⟨otp_error_message_mapping.2.2.2.1 "auth/network-request-failed"
      (by decide) (by decide) (by decide),
   otp_error_message_mapping.2.2.2.2.2.2.1 "auth/network-request-failed"
      (by decide) (by decide)⟩

end Stamp.OtpLogin
